import Mathlib

/-!
# AI_Finance core — shallow embedding and verification

This file embeds the core logic of the AI_Finance repository (TypeScript)
in Lean 4 and settles the frozen claims about it.

Conventions of the embedding:
* JavaScript numbers are modelled as rationals (`ℚ`); all arithmetic in the
  relevant code paths is exact decimal arithmetic on amounts.
* JavaScript truthiness is modelled explicitly where the source relies on it
  (`!x` on a possibly-absent number/string).
* Non-deterministic external dependencies (the inference providers, the
  persistence layer, `JSON.parse`) are taken as explicit function parameters,
  so every definition is executable once those parameters are fixed.
* Exceptions are modelled with `Except`; a `try/catch` in the source becomes
  a `match` on the `Except` value.
-/

namespace AIFinance

/-! ## Financial calculators (`handleAffordabilityCheck`, `handleSavingsTimeline`) -/

/-- Risk level strings produced by `handleAffordabilityCheck`. -/
inductive RiskLevel where
  | low | medium | high
deriving DecidableEq, Repr

/-- Affordability status produced by `handleAffordabilityCheck`. -/
inductive AffordStatus where
  | notAffordable | riskyPurchase | expensiveForIncome | affordable
deriving DecidableEq, Repr

/-- Which branch of the `if/else` chain produced the recommendation text;
distinguishes the `balance <= 0` branch from the `purchase > balance`
branch (whose message reports the shortfall `purchase - balance`). -/
inductive AffordReason where
  | negativeBalance
  | exceedsBalance (shortfall : ℚ)
  | belowSafeLimit
  | highIncomeShare
  | ok
deriving DecidableEq, Repr

structure AffordVerdict where
  status : AffordStatus
  risk : RiskLevel
  reason : AffordReason
deriving DecidableEq, Repr

/-- Embedding of the decision chain of `handleAffordabilityCheck`
(src/unnamed/part_000, lines 2840–2878):

    const recommendedReserve = totalExpenses * 3;
    const safeSpendingLimit = Math.max(0, balance - recommendedReserve);
    const incomePercentage = (purchaseAmount / monthlyIncome) * 100;
    if (balance <= 0)                 -> NOT AFFORDABLE, high risk
    else if (purchaseAmount > balance)-> NOT AFFORDABLE, high risk (shortfall)
    else if (purchaseAmount > safeSpendingLimit) -> RISKY, medium
    else if (incomePercentage > 50)   -> EXPENSIVE FOR INCOME, medium
    else                              -> AFFORDABLE, low
-/
def handleAffordabilityCheck (balance monthlyIncome totalExpenses purchaseAmount : ℚ) :
    AffordVerdict :=
  let recommendedReserve := totalExpenses * 3
  let safeSpendingLimit := max 0 (balance - recommendedReserve)
  let incomePercentage := purchaseAmount / monthlyIncome * 100
  if balance ≤ 0 then
    ⟨.notAffordable, .high, .negativeBalance⟩
  else if purchaseAmount > balance then
    ⟨.notAffordable, .high, .exceedsBalance (purchaseAmount - balance)⟩
  else if purchaseAmount > safeSpendingLimit then
    ⟨.riskyPurchase, .medium, .belowSafeLimit⟩
  else if incomePercentage > 50 then
    ⟨.expensiveForIncome, .medium, .highIncomeShare⟩
  else
    ⟨.affordable, .low, .ok⟩

/-- The affordability rules exactly as the specification states them
(§4.5, rules 1–5 in priority order, first match wins). -/
def affordabilitySpec (balance monthlyIncome totalExpenses purchaseAmount : ℚ) :
    AffordVerdict :=
  if balance ≤ 0 then
    ⟨.notAffordable, .high, .negativeBalance⟩
  else if purchaseAmount > balance then
    ⟨.notAffordable, .high, .exceedsBalance (purchaseAmount - balance)⟩
  else if purchaseAmount > balance - 3 * totalExpenses then
    ⟨.riskyPurchase, .medium, .belowSafeLimit⟩
  else if purchaseAmount / monthlyIncome > 1/2 then
    ⟨.expensiveForIncome, .medium, .highIncomeShare⟩
  else
    ⟨.affordable, .low, .ok⟩

/-- JavaScript truthiness for an optional number: `undefined`/`null` and `0`
are falsy, every other number is truthy. -/
def numTruthy : Option ℚ → Bool
  | none => false
  | some q => q ≠ 0

/-- `a || b` on optional numbers with JavaScript truthiness. -/
def jsOrNum (a b : Option ℚ) : Option ℚ :=
  if numTruthy a then a else b

/-- JavaScript truthiness for an optional string: `undefined`/`null` and `""`
are falsy. -/
def strTruthy : Option String → Bool
  | none => false
  | some s => s ≠ ""

/-- `a || b` on optional strings with JavaScript truthiness. -/
def jsOrStr (a b : Option String) : Option String :=
  if strTruthy a then a else b

/-! ### JavaScript string primitives

The embedding implements the JavaScript string operations the source uses
(`toLowerCase`, `toUpperCase`, `trim`, `includes`, global `replace`)
directly on character lists.  (The Lean core `String` functions work on
byte positions and are opaque to kernel reduction, so they cannot serve as
executable models.) -/

/-- `s.toLowerCase()`. -/
def jsToLower (s : String) : String :=
  String.mk (s.data.map Char.toLower)

/-- `s.toUpperCase()`. -/
def jsToUpper (s : String) : String :=
  String.mk (s.data.map Char.toUpper)

/-- `s.trim()`: strip leading and trailing whitespace. -/
def jsTrim (s : String) : String :=
  String.mk
    (((s.data.dropWhile Char.isWhitespace).reverse.dropWhile
      Char.isWhitespace).reverse)

/-- Substring occurrence on character lists. -/
def listContainsSub : List Char → List Char → Bool
  | [], needle => needle.isEmpty
  | c :: rest, needle => needle.isPrefixOf (c :: rest) || listContainsSub rest needle

/-- `s.includes(pat)`. -/
def strIncludes (s pat : String) : Bool :=
  listContainsSub s.data pat.data

/-- Remove every occurrence of `needle` scanning left to right, with fuel
(the list length at the call site) keeping the recursion structural. -/
def removeAllFuel : ℕ → List Char → List Char → List Char
  | 0, _, _ => []
  | _ + 1, [], _ => []
  | fuel + 1, c :: rest, needle =>
    if needle ≠ [] ∧ needle.isPrefixOf (c :: rest) then
      removeAllFuel fuel ((c :: rest).drop needle.length) needle
    else c :: removeAllFuel fuel rest needle

/-- `s.replace(pat-as-global-literal, "")`: delete all occurrences. -/
def removeAll (s pat : String) : String :=
  String.mk (removeAllFuel s.data.length s.data pat.data)

/-- Embedding of the target-amount resolution at the top of
`handleSavingsTimeline` (src/unnamed/part_000, lines 2950–2976).  The three
extraction sources (`data.amount`, `extractAmountFromQuery(userQuery)`,
the `₹`-amount regex over the conversation context) are taken as the
optional amounts they produce.  Returns `none` exactly when the guard
branch `"I need to know the target amount ..."` is taken. -/
def resolveSavingsTarget (dataAmount queryAmount contextAmount : Option ℚ)
    (dataItem queryItem : Option String) : Option (ℚ × Option String) :=
  -- let purchaseAmount = data.amount || extractAmountFromQuery(userQuery || "");
  let purchaseAmount := jsOrNum dataAmount queryAmount
  let itemName := jsOrStr dataItem queryItem
  -- if (!purchaseAmount && conversationContext) { ... purchaseAmount = parseInt(...) }
  let purchaseAmount :=
    if ¬ numTruthy purchaseAmount then jsOrNum purchaseAmount contextAmount
    else purchaseAmount
  -- if (!purchaseAmount) { purchaseAmount = 50000; itemName = itemName || "iPhone"; }
  let step3 : Option ℚ × Option String :=
    if ¬ numTruthy purchaseAmount then (some 50000, jsOrStr itemName (some "iPhone"))
    else (purchaseAmount, itemName)
  -- if (!purchaseAmount) { return "I need to know the target amount ..." }
  if ¬ numTruthy step3.1 then none
  else step3.1.map (fun q => (q, step3.2))

/-- Result of the savings-timeline computation of `handleSavingsTimeline`
(src/unnamed/part_000, lines 2978–3082). -/
structure TimelineResult where
  monthlySurplus : ℚ
  shortfall : ℚ
  feasible : Bool
  /-- `Math.abs(monthlySurplus)` reported when the surplus is non-positive. -/
  deficit : Option ℚ
  /-- The `shortfall <= 0` branch: "You can afford it now!". -/
  affordableNow : Bool
  months100 : Option ℤ
  months70 : Option ℤ
  months50 : Option ℤ
  monthsEmergency : Option ℤ
deriving DecidableEq, Repr

/-- Embedding of the arithmetic of `handleSavingsTimeline` given the user's
aggregate snapshot and the resolved target amount:

    const monthlySurplus = totalIncome - totalExpenses;
    const shortfall = targetAmount - balance;
    const emergencyFund = totalExpenses * 6;
    const totalShortfall = targetAmount + emergencyFund - balance;
    if (monthlySurplus <= 0) -> infeasible, report Math.abs(monthlySurplus)
    else -> monthsForItemOnly = ceil(shortfall / monthlySurplus)
            monthsWithEmergencyFund = ceil(totalShortfall / monthlySurplus)
            monthsAt50Percent = ceil(shortfall / (monthlySurplus * 0.5))
            monthsAt70Percent = ceil(shortfall / (monthlySurplus * 0.7))
            (displayed only when shortfall > 0; shortfall <= 0 renders
             "You can afford it now!")
-/
def handleSavingsTimeline (balance totalIncome totalExpenses targetAmount : ℚ) :
    TimelineResult :=
  let monthlySurplus := totalIncome - totalExpenses
  let shortfall := targetAmount - balance
  let emergencyFund := totalExpenses * 6
  let requiredTotal := targetAmount + emergencyFund
  let totalShortfall := requiredTotal - balance
  if monthlySurplus ≤ 0 then
    { monthlySurplus, shortfall, feasible := false, deficit := some |monthlySurplus|
      affordableNow := false
      months100 := none, months70 := none, months50 := none, monthsEmergency := none }
  else
    { monthlySurplus, shortfall, feasible := true, deficit := none
      affordableNow := shortfall ≤ 0
      months100 := some ⌈shortfall / monthlySurplus⌉
      months70 := some ⌈shortfall / (monthlySurplus * (7/10))⌉
      months50 := some ⌈shortfall / (monthlySurplus * (1/2))⌉
      monthsEmergency := some ⌈totalShortfall / monthlySurplus⌉ }

/-! ## Anomaly detector (`detectAnomalies`, `addSmartExpense`, src/README.md) -/

/-- An expense record as used by the in-memory `expenseDB` of the demo
module.  The `Date` field is represented by the only observation
`detectAnomalies` makes of it: `date.getHours()`, a local hour in `0..23`
(the embedding carries the raw value; the range is a hypothesis where it
matters). -/
structure SmartExpense where
  name : String
  amount : ℚ
  category : String
  hour : ℕ
deriving DecidableEq, Repr

/-- Alerts produced by `detectAnomalies`. -/
inductive Alert where
  | unusualAmount
  | lateNight
deriving DecidableEq, Repr

/-- Embedding of `detectAnomalies` (src/README.md, lines 1010–1038):

    const categoryExpenses = expenseDB.filter(e => e.category === expense.category);
    if (categoryExpenses.length > 0) {
      const avgAmount = sum / categoryExpenses.length;
      if (expense.amount > avgAmount * 2) alerts.push("UNUSUAL ...");
    }
    const hour = expense.date.getHours();
    if (hour < 6 || hour > 23) alerts.push("LATE NIGHT ...");
-/
def detectAnomalies (expense : SmartExpense) (expenseDB : List SmartExpense) :
    List Alert :=
  let categoryExpenses := expenseDB.filter (fun e => e.category = expense.category)
  let amountAlerts :=
    if 0 < categoryExpenses.length then
      let avgAmount :=
        (categoryExpenses.map (fun e => e.amount)).sum / categoryExpenses.length
      if expense.amount > avgAmount * 2 then [Alert.unusualAmount] else []
    else []
  let timeAlerts :=
    if expense.hour < 6 ∨ expense.hour > 23 then [Alert.lateNight] else []
  amountAlerts ++ timeAlerts

/-- Embedding of `addSmartExpense` (src/README.md, lines 987–1007): the new
expense is pushed into `expenseDB` first, and `detectAnomalies` runs on the
updated list:

    expenseDB.push(expense);
    const alerts = detectAnomalies(expense);

Returns the updated database together with the alerts. -/
def addSmartExpense (expense : SmartExpense) (expenseDB : List SmartExpense) :
    List SmartExpense × List Alert :=
  let db' := expenseDB ++ [expense]
  (db', detectAnomalies expense db')

/-! ## Model router & inference gateway (`callAIWithBestModel`) -/

/-- Which provider a call was issued to. -/
inductive ProviderTag where
  | primary
  | fallback
deriving DecidableEq, Repr

/-- Embedding of `callAIWithBestModel` (src/unnamed/part_000, lines 56–114).
The behaviour of the two providers is supplied as functions from the message
payload to a result (`Except err resp` models throw/return).  Besides the
final outcome, the embedding records the log of calls issued, pairing each
with the payload it received:

    try { return await primary(messages); }
    catch { try { return await fallback(messages); }
            catch (fallbackError) { throw fallbackError; } }
-/
def callAIWithBestModel (primary fallback : List String → Except String String)
    (messages : List String) :
    Except String String × List (ProviderTag × List String) :=
  match primary messages with
  | .ok r => (.ok r, [(.primary, messages)])
  | .error _ =>
    match fallback messages with
    | .ok r => (.ok r, [(.primary, messages), (.fallback, messages)])
    | .error e2 => (.error e2, [(.primary, messages), (.fallback, messages)])

/-! ## Intent classifier (`extractFinancialData`, `extractExpenseFromMessage`)

The raw provider output is a string; `JSON.parse` is a JavaScript builtin
and is modelled as an explicit parameter `jsParse` producing a `Json` value
or throwing (`Except.error`).  Property access on the parsed value follows
JavaScript semantics: access on `null` throws a `TypeError`, access on a
non-object yields `undefined` (modelled as `Option.none`). -/

/-- A JSON value. -/
inductive Json where
  | null
  | bool (b : Bool)
  | num (q : ℚ)
  | str (s : String)
  | arr (elems : List Json)
  | obj (fields : List (String × Json))

/-- JavaScript property access `j.key`: throws on `null`, yields the field on
an object (or `undefined` when absent), and `undefined` on every other
value. -/
def jsGetField (j : Json) (key : String) : Except String (Option Json) :=
  match j with
  | .null => .error "TypeError: cannot read properties of null"
  | .obj fields => .ok (fields.lookup key)
  | _ => .ok none

/-- JavaScript truthiness of a possibly-`undefined` JSON value. -/
def jsonTruthy : Option Json → Bool
  | none => false
  | some .null => false
  | some (.bool b) => b
  | some (.num q) => q ≠ 0
  | some (.str s) => s ≠ ""
  | some (.arr _) => true
  | some (.obj _) => true

/-- The markdown-fence cleanup applied to the raw model output:

    content.replace(/```json\s*/g, "").replace(/```\s*/g, "").trim()

The `\s*` of the regexes additionally consumes whitespace directly after a
fence; dropping it only leaves extra whitespace between tokens, which never
changes whether the remainder parses as JSON. -/
def stripFences (s : String) : String :=
  jsTrim (removeAll (removeAll s "```json") "```")

/-- `response.choices[0].message.content || "{}"`: an absent/empty content
string falls back to `"{}"`. -/
def contentOrBrace (raw : String) : String :=
  if raw = "" then "{}" else raw

/-- The result shape of `extractFinancialData` (src/unnamed/part_000,
lines 649–666).  The `type` field carries the raw JSON value the model
returned (the code passes it through untouched). -/
structure ExtractResult where
  type : Json
  hasData : Bool
  data : Option Json
  isMultiple : Bool

/-- The `none` variant `{ type: "none", hasData: false }`. -/
def noneExtraction : ExtractResult :=
  { type := .str "none", hasData := false, data := none, isMultiple := false }

/-- The body of the `try` block of `extractFinancialData`
(src/unnamed/part_000, lines 729–758):

    let content = response.choices[0].message.content || "{}";
    content = content.replace(/```json\s*/g,"").replace(/```\s*/g,"").trim();
    const result = JSON.parse(content);
    if (!result.type || result.type === "none") return { type:"none", hasData:false };
    return { type: result.type, hasData: true, data: result.data,
             isMultiple: result.isMultiple || false };
-/
def extractFinancialDataCore (jsParse : String → Except String Json)
    (raw : String) : Except String ExtractResult :=
  let content := stripFences (contentOrBrace raw)
  match jsParse content with
  | .error e => .error e
  | .ok j =>
    match jsGetField j "type" with
    | .error e => .error e
    | .ok tfield =>
      let isNoneTag := match tfield with
        | some (.str s) => s == "none"
        | _ => false
      if !jsonTruthy tfield || isNoneTag then
        .ok noneExtraction
      else
        match jsGetField j "data", jsGetField j "isMultiple" with
        | .ok dfield, .ok mfield =>
          .ok { type := tfield.getD .null, hasData := true, data := dfield,
                isMultiple := jsonTruthy mfield }
        | .error e, _ => .error e
        | _, .error e => .error e

/-- `extractFinancialData`: the surrounding `try/catch` returns the `none`
variant on any thrown error, so the function is total over all provider
output strings and never propagates an exception to its caller. -/
def extractFinancialData (jsParse : String → Except String Json)
    (raw : String) : ExtractResult :=
  match extractFinancialDataCore jsParse raw with
  | .error _ => noneExtraction
  | .ok r => r

/-! ### Expense validation (`extractExpenseFromMessage`, lines 161–221) -/

/-- The `expenseData` payload of a recognized expense. -/
structure ExpenseData where
  name : Option String
  amount : Option ℚ
  category : Option String
  description : Option String
  merchant : Option String
  location : Option String
deriving DecidableEq, Repr

/-- `x <= 0` on a possibly-absent number.  In the source this comparison is
only reached when `x` is truthy (short-circuit `||`), but JavaScript would
evaluate `undefined <= 0` to `false`, which the `none` case mirrors. -/
def leZeroQ : Option ℚ → Bool
  | none => false
  | some q => q ≤ 0

/-- Missing-field computation of `extractExpenseFromMessage`
(src/unnamed/part_000, lines 183–195), in source order:

    if (!amount || amount <= 0) missingFields.push("amount");
    if (!name && !description)  missingFields.push("description");
    if (!category)              missingFields.push("category");
-/
def missingFieldsOf (d : ExpenseData) : List String :=
  (if ¬ numTruthy d.amount ∨ leZeroQ d.amount then ["amount"] else []) ++
  (if ¬ strTruthy d.name ∧ ¬ strTruthy d.description then ["description"] else []) ++
  (if ¬ strTruthy d.category then ["category"] else [])

/-- A clarifying question, one per missing field; the category question
interpolates the already-known amount. -/
inductive Clarification where
  | askAmount
  | askDescription
  | askCategory (amount : Option ℚ)
deriving DecidableEq, Repr

/-- Question generation of `extractExpenseFromMessage` (lines 198–209):

    if (missingFields.length > 0) {
      if (missingFields.includes("amount")) ...amount question
      else if (missingFields.includes("description")) ...description question
      else if (missingFields.includes("category")) ...category question
    }

`none` models the empty string `""` left when no field is missing (returned
as `undefined` via `clarificationQuestion || undefined`). -/
def clarificationFor (missing : List String) (d : ExpenseData) :
    Option Clarification :=
  if missing.length > 0 then
    if missing.contains "amount" then some .askAmount
    else if missing.contains "description" then some .askDescription
    else if missing.contains "category" then some (.askCategory d.amount)
    else none
  else none

/-- The single question a given field name maps to. -/
def questionForMissingField (field : String) (d : ExpenseData) :
    Option Clarification :=
  if field = "amount" then some .askAmount
  else if field = "description" then some .askDescription
  else if field = "category" then some (.askCategory d.amount)
  else none

/-- Reading the `expenseData` object out of the parsed JSON.  Property
access on an absent or `null` `expenseData` throws (caught by the outer
`try/catch`).  Field values of unexpected shapes (e.g. a string amount) are
read as absent; the provider is prompted for this exact shape and no claim
depends on coerced comparisons of mis-typed fields. -/
def jsonToExpenseData (ed : Option Json) : Except String ExpenseData :=
  match ed with
  | none => .error "TypeError: cannot read properties of undefined"
  | some .null => .error "TypeError: cannot read properties of null"
  | some j =>
    let readNum (key : String) : Option ℚ :=
      match (jsGetField j key).toOption.join with
      | some (.num q) => some q
      | _ => none
    let readStr (key : String) : Option String :=
      match (jsGetField j key).toOption.join with
      | some (.str s) => some s
      | _ => none
    .ok { name := readStr "name", amount := readNum "amount",
          category := readStr "category", description := readStr "description",
          merchant := readStr "merchant", location := readStr "location" }

/-- The result shape of `extractExpenseFromMessage`. -/
structure ExpenseExtraction where
  hasExpense : Bool
  expenseData : Option ExpenseData
  missingFields : Option (List String)
  clarificationQuestion : Option Clarification
deriving DecidableEq, Repr

/-- The `{ hasExpense: false }` result. -/
def noExpenseExtraction : ExpenseExtraction :=
  { hasExpense := false, expenseData := none, missingFields := none,
    clarificationQuestion := none }

/-- The body of the `try` block of `extractExpenseFromMessage`
(src/unnamed/part_000, lines 161–216). -/
def extractExpenseCore (jsParse : String → Except String Json)
    (raw : String) : Except String ExpenseExtraction :=
  let content := stripFences (contentOrBrace raw)
  match jsParse content with
  | .error e => .error e
  | .ok j =>
    match jsGetField j "hasExpense" with
    | .error e => .error e
    | .ok hasE =>
      if ¬ jsonTruthy hasE then .ok noExpenseExtraction
      else
        match jsGetField j "expenseData" with
        | .error e => .error e
        | .ok ed =>
          match jsonToExpenseData ed with
          | .error e => .error e
          | .ok d =>
            let missing := missingFieldsOf d
            .ok { hasExpense := true, expenseData := some d,
                  missingFields := if missing.length > 0 then some missing else none,
                  clarificationQuestion := clarificationFor missing d }

/-- `extractExpenseFromMessage`: any thrown error is caught and turned into
`{ hasExpense: false }`. -/
def extractExpenseFromMessage (jsParse : String → Except String Json)
    (raw : String) : ExpenseExtraction :=
  match extractExpenseCore jsParse raw with
  | .error _ => noExpenseExtraction
  | .ok r => r

/-! ## Conversation state machine (`processChatMessage`, `handleExpenseCompletion`)

Per-user state held in the `conversationStates` map (src/unnamed/part_000,
lines 1896–1912); the embedding models one user's entry.  The AI-driven
classification `extractFinancialData(message, context)` is supplied as an
input, and the persistence collaborator `saveExpenseToDatabase` as a
function `save`. -/

structure ConversationState where
  pendingExpense : Option ExpenseData
  missingFields : Option (List String)
deriving DecidableEq, Repr

/-- The state of a user with no map entry: `conversationStates.get(userId)
|| { userId }`. -/
def emptyConversationState : ConversationState := ⟨none, none⟩

/-- Digits to a natural number, most significant first. -/
def digitsToNat (ds : List Char) : ℕ :=
  ds.foldl (fun n c => 10 * n + (c.toNat - 48)) 0

/-- First match of `/(\d+(?:\.\d{1,2})?)/` over the character list: the
leftmost maximal digit run, with up to two fraction digits when a dot
followed by a digit comes right after, converted by `parseFloat`. -/
def matchAmountAux : List Char → Option ℚ
  | [] => none
  | c :: rest =>
    if c.isDigit then
      let ds := (c :: rest).takeWhile Char.isDigit
      let after := (c :: rest).dropWhile Char.isDigit
      let frac : List Char :=
        match after with
        | '.' :: d :: _ =>
          if d.isDigit then ((after.drop 1).takeWhile Char.isDigit).take 2 else []
        | _ => []
      some ((digitsToNat ds : ℚ) + (digitsToNat frac : ℚ) / (10 : ℚ) ^ frac.length)
    else matchAmountAux rest

/-- `message.match(/(\d+(?:\.\d{1,2})?)/)` followed by `parseFloat` on the
captured group (src/unnamed/part_000, line 2383). -/
def matchAmount (s : String) : Option ℚ :=
  matchAmountAux s.toList

/-- The fixed category enumeration of the clarification regex. -/
def categoryAlternatives : List String :=
  ["food", "transport", "entertainment", "shopping", "bills", "healthcare",
   "utilities", "other"]

/-- Leftmost match of the category alternation: positions are scanned left
to right and at each position the alternatives are tried in order. -/
def matchCategoryAux : List Char → Option String
  | [] => none
  | c :: rest =>
    match categoryAlternatives.find? (fun w => w.toList.isPrefixOf (c :: rest)) with
    | some w => some w
    | none => matchCategoryAux rest

/-- `message.toLowerCase().match(/(food|transport|entertainment|shopping|bills|healthcare|utilities|other)/)`
(src/unnamed/part_000, lines 2482–2486). -/
def matchCategory (s : String) : Option String :=
  matchCategoryAux (jsToLower s).data

/-- The follow-up question of `getQuestionForMissingField`
(src/unnamed/part_000, lines 2529–2539), as a tag per field. -/
inductive FollowUpQuestion where
  | howMuch
  | whatFor
  | whichCategory (amount : Option ℚ)
  | moreDetails
deriving DecidableEq, Repr

/-- `getQuestionForMissingField(field, expenseData)`. -/
def getQuestionForMissingField (field : String) (d : ExpenseData) :
    FollowUpQuestion :=
  if field = "amount" then .howMuch
  else if field = "description" then .whatFor
  else if field = "category" then .whichCategory d.amount
  else .moreDetails

/-- Response tags of `handleExpenseCompletion`, one per distinct response
text of the source. -/
inductive CompletionResponse where
  /-- "Perfect! I have saved your expense ..." -/
  | savedOk
  /-- "Sorry, I couldn't save your expense ... Please try again." (state cleared) -/
  | saveFailedCleared
  /-- The next missing-field question via `getQuestionForMissingField`. -/
  | askNext (q : FollowUpQuestion)
  /-- "I couldn't find an amount in your message. ..." -/
  | amountNotFound
  /-- "Please choose a category: food, transport, ..." -/
  | chooseCategory
  /-- "I didn't understand that. Could you please provide the information I asked for?" -/
  | notUnderstood
deriving DecidableEq, Repr

structure CompletionResult where
  completed : Bool
  response : CompletionResponse
  pendingExpense : Option ExpenseData
  missingFields : Option (List String)
  savedExpense : Option ExpenseData
deriving DecidableEq, Repr

/-- Third sequential `if`-block of `handleExpenseCompletion`
(src/unnamed/part_000, lines 2481–2525): the category block, followed by
the final "I didn't understand that" return.  `missing` is the *original*
missing-field list (the source tests the local `missingFields` constant).
On save failure after a category match the source has no `else`, so control
falls to the final return with the mutated expense kept in the state. -/
def handleExpenseCompletionCategoryBlock (save : ExpenseData → Bool)
    (pe : ExpenseData) (missing : List String) (message : String) :
    CompletionResult :=
  let fallthrough (pe : ExpenseData) : CompletionResult :=
    { completed := false, response := .notUnderstood,
      pendingExpense := some pe, missingFields := some missing,
      savedExpense := none }
  if missing.contains "category" then
    match matchCategory message with
    | some w =>
      let pe := { pe with category := some w }
      if numTruthy pe.amount then
        if save pe then
          { completed := true, response := .savedOk,
            pendingExpense := none, missingFields := none,
            savedExpense := some pe }
        else fallthrough pe
      else fallthrough pe
    | none =>
      { completed := false, response := .chooseCategory,
        pendingExpense := some pe, missingFields := some missing,
        savedExpense := none }
  else fallthrough pe

/-- Second sequential `if`-block of `handleExpenseCompletion`
(src/unnamed/part_000, lines 2439–2479): the description block.  Note the
source falls through to the category block both when the amount is falsy
and when the save fails (its success branch is the only `return`). -/
def handleExpenseCompletionDescBlock (save : ExpenseData → Bool)
    (pe : ExpenseData) (missing : List String) (message : String) :
    CompletionResult :=
  if missing.contains "description" ∧ ¬ strTruthy pe.name then
    let pe := { pe with name := some (jsTrim message), description := some (jsTrim message) }
    let newMissing := missing.filter (fun f => f ≠ "description")
    if newMissing.isEmpty then
      if numTruthy pe.amount then
        if save pe then
          { completed := true, response := .savedOk,
            pendingExpense := none, missingFields := none,
            savedExpense := some pe }
        else handleExpenseCompletionCategoryBlock save pe missing message
      else handleExpenseCompletionCategoryBlock save pe missing message
    else
      { completed := false,
        response := .askNext (getQuestionForMissingField (newMissing.headD "") pe),
        pendingExpense := some pe, missingFields := some newMissing,
        savedExpense := none }
  else handleExpenseCompletionCategoryBlock save pe missing message

/-- `handleExpenseCompletion` (src/unnamed/part_000, lines 2369–2526),
called when the user answers an outstanding clarifying question.  The
source takes the whole `state`; the call site guards on both fields being
present, so the embedding takes the pending expense and the missing-field
list directly.  The amount block falls through (source has no `return`
there) when the parsed amount is falsy, i.e. `0`. -/
def handleExpenseCompletion (save : ExpenseData → Bool) (pe0 : ExpenseData)
    (missing : List String) (message : String) : CompletionResult :=
  if missing.contains "amount" then
    match matchAmount message with
    | some a =>
      let pe := { pe0 with amount := some a }
      let newMissing := missing.filter (fun f => f ≠ "amount")
      if newMissing.isEmpty then
        if numTruthy pe.amount then
          if save pe then
            { completed := true, response := .savedOk,
              pendingExpense := none, missingFields := none,
              savedExpense := some pe }
          else
            { completed := false, response := .saveFailedCleared,
              pendingExpense := none, missingFields := none,
              savedExpense := none }
        else handleExpenseCompletionDescBlock save pe missing message
      else
        { completed := false,
          response := .askNext (getQuestionForMissingField (newMissing.headD "") pe),
          pendingExpense := some pe, missingFields := some newMissing,
          savedExpense := none }
    | none =>
      { completed := false, response := .amountNotFound,
        pendingExpense := some pe0, missingFields := some missing,
        savedExpense := none }
  else handleExpenseCompletionDescBlock save pe0 missing message

/-- The `action` tags of `processChatMessage`'s result. -/
inductive ChatAction where
  | expenseSaved | incomeSaved | budgetSaved | goalSaved
  | analytics | pending | advice | greeting
deriving DecidableEq, Repr

/-- Response tags of `processChatMessage`, one per distinct user-facing
response family of the source. -/
inductive ChatResponse where
  /-- A response produced by the pending-expense completion branch. -/
  | completion (r : CompletionResponse)
  /-- The greeting help text. -/
  | greetingText
  /-- "I didn't understand that. You can: ..." -/
  | didNotUnderstand
  /-- "Expense Saved!" -/
  | expenseSavedText
  /-- "Failed to save expense: ..." -/
  | expenseSaveFailed
  /-- The multi-expense summary (always tagged `expense_saved`). -/
  | multipleExpenses (saved failed : ℕ)
  /-- Responses of the income/budget/goal/analytics/advice handlers, whose
  internals no claim depends on. -/
  | otherIntent (tag : String)
  /-- The `default` branch of the intent switch. -/
  | unknownIntent
deriving DecidableEq, Repr

structure ChatOutcome where
  response : ChatResponse
  action : Option ChatAction
  newState : ConversationState
  /-- Expense entries committed to persistence during this turn. -/
  committed : List ExpenseData
deriving DecidableEq, Repr

/-- The greeting alternation `/^(hi|hello|hey|good morning|good afternoon|good evening|greetings|what's up|sup|howdy)$/i`
tested against `message.trim().toLowerCase()`. -/
def greetingWords : List String :=
  ["hi", "hello", "hey", "good morning", "good afternoon", "good evening",
   "greetings", "what\u0027s up", "sup", "howdy"]

/-- `handleExpenseCreation` (src/unnamed/part_000, lines 2144–2166): saves
the extracted payload immediately via `saveExpenseToDatabase` and returns
either the saved confirmation or a failure text.  It neither creates a
pending operation nor changes the conversation state. -/
def handleExpenseCreation (save : ExpenseData → Bool) (data : Option Json)
    (state : ConversationState) : ChatOutcome :=
  match jsonToExpenseData data with
  | .error _ =>
    -- `saveExpenseToDatabase` catches the access error internally and
    -- reports `success: false`.
    { response := .expenseSaveFailed, action := none, newState := state,
      committed := [] }
  | .ok d =>
    if save d then
      { response := .expenseSavedText, action := some .expenseSaved,
        newState := state, committed := [d] }
    else
      { response := .expenseSaveFailed, action := none, newState := state,
        committed := [] }

/-- `handleMultipleExpenseCreation` (src/unnamed/part_000, lines 2169–2256):
each array element is saved independently; the action is always
`expense_saved`. -/
def handleMultipleExpenseCreation (save : ExpenseData → Bool)
    (elems : List Json) (state : ConversationState) : ChatOutcome :=
  let saved := (elems.filterMap (fun j => (jsonToExpenseData (some j)).toOption)).filter save
  let failedCount := elems.length - saved.length
  { response := .multipleExpenses saved.length failedCount,
    action := some .expenseSaved, newState := state, committed := saved }

/-- The non-pending path of `processChatMessage` (src/unnamed/part_000,
lines 1983–2120): greeting check, then dispatch on the extraction result.
The income/budget/goal/analytics/advice handlers commit no expense entry
and never touch the conversation state; they are represented by their
action tags. -/
def processChatMessageMain (save : ExpenseData → Bool)
    (state : ConversationState) (message : String)
    (extraction : ExtractResult) : ChatOutcome :=
  let trimmedMessage := jsToLower (jsTrim message)
  if greetingWords.contains trimmedMessage then
    { response := .greetingText, action := some .greeting, newState := state,
      committed := [] }
  else if ¬ extraction.hasData then
    { response := .didNotUnderstand, action := none, newState := state,
      committed := [] }
  else
    let typeTag : Option String :=
      match extraction.type with
      | .str s => some s
      | _ => none
    if typeTag = some "expense" then
      match extraction.isMultiple, extraction.data with
      | true, some (.arr elems) => handleMultipleExpenseCreation save elems state
      | _, _ => handleExpenseCreation save extraction.data state
    else if typeTag = some "income" then
      { response := .otherIntent "income", action := some .incomeSaved,
        newState := state, committed := [] }
    else if typeTag = some "budget" then
      { response := .otherIntent "budget", action := some .budgetSaved,
        newState := state, committed := [] }
    else if typeTag = some "goal" then
      { response := .otherIntent "goal", action := some .goalSaved,
        newState := state, committed := [] }
    else if typeTag = some "analytics" then
      { response := .otherIntent "analytics", action := some .analytics,
        newState := state, committed := [] }
    else if typeTag = some "advice" then
      { response := .otherIntent "advice", action := some .advice,
        newState := state, committed := [] }
    else
      { response := .unknownIntent, action := none, newState := state,
        committed := [] }

/-- `processChatMessage` (src/unnamed/part_000, lines 1914–2141) for one
user: if the state map holds a pending expense with missing fields, the
message is treated as the answer to the outstanding question
(`handleExpenseCompletion`) and the map entry is replaced by the returned
state; otherwise the main classification path runs, which never writes to
the state map. -/
def processChatMessage (save : ExpenseData → Bool) (state : ConversationState)
    (message : String) (extraction : ExtractResult) : ChatOutcome :=
  match state.pendingExpense, state.missingFields with
  | some pe, some missing =>
    let cr := handleExpenseCompletion save pe missing message
    { response := .completion cr.response,
      action := some (if cr.completed then ChatAction.expenseSaved else ChatAction.pending),
      newState := { pendingExpense := cr.pendingExpense, missingFields := cr.missingFields },
      committed := cr.savedExpense.toList }
  | _, _ => processChatMessageMain save state message extraction

/-- The responses of `processChatMessage` that ask the user a clarifying
question about a partially-filled expense. -/
def isClarifyingQuestion : ChatResponse → Bool
  | .completion (.askNext _) => true
  | .completion .amountNotFound => true
  | .completion .chooseCategory => true
  | _ => false

/-! ## Statement ingestion pipeline (`parseTransactionData`,
`processTransactionsWithAI`, src/unnamed/part_000, lines 1283–1426)

Rows of the tabular document are lists of cell strings.  The persistence
collaborator (`saveTransactionToDatabase`) is a function parameter.  The
`Date` value produced for each transaction is kept as the raw date string:
no claim observes it and the parsed `Date` never influences control flow
or the counts. -/

structure RawTransaction where
  name : String
  bank : String
  amount : ℚ
  date : String
  status : String
  isIncome : Bool
deriving DecidableEq, Repr

/-- `String(amountStr).replace(/[^-0-9.]/g, '')`: keep only digits, `-`
and `.`. -/
def cleanAmountChars (s : String) : List Char :=
  s.toList.filter (fun c => c.isDigit || c = '-' || c = '.')

/-- `parseFloat` on the cleaned amount characters: optional leading sign,
integer digits, optional fraction digits; `none` models `NaN`. -/
def parseFloatQ (cs : List Char) : Option ℚ :=
  let (neg, cs) := match cs with
    | '-' :: rest => (true, rest)
    | _ => (false, cs)
  let intDs := cs.takeWhile Char.isDigit
  let rest := cs.dropWhile Char.isDigit
  let fracDs := match rest with
    | '.' :: r => r.takeWhile Char.isDigit
    | _ => []
  if intDs.isEmpty ∧ fracDs.isEmpty then none
  else
    let mag : ℚ := (digitsToNat intDs : ℚ) + (digitsToNat fracDs : ℚ) / (10 : ℚ) ^ fracDs.length
    some (if neg then -mag else mag)

/-- `parseTransactionRow` (src/unnamed/part_000, lines 1307–1334):

    Expected CSV format: Date, Merchant, Amount, Status, Bank
    if (row.length < 5) return null;
    const amount = Math.abs(parseFloat(String(amountStr).replace(/[^-0-9.]/g, '')));
    if (isNaN(amount) || amount === 0) return null;
    const isIncome = !String(amountStr).includes('-');
-/
def parseTransactionRow (row : List String) : Option RawTransaction :=
  match row with
  | dateStr :: merchant :: amountStr :: status :: bank :: _ =>
    match parseFloatQ (cleanAmountChars amountStr) with
    | none => none
    | some a =>
      let amount := |a|
      if amount = 0 then none
      else
        some { name := jsTrim merchant, bank := jsTrim bank, amount := amount,
               date := jsTrim dateStr, status := jsTrim status,
               isIncome := ¬ strIncludes amountStr "-" }
  | _ => none

/-- `parseTransactionData` (src/unnamed/part_000, lines 1283–1304): the
loop starts at `i = 1` (the header row is skipped); rows with fewer than 5
cells are skipped with `continue`, and rows for which `parseTransactionRow`
returns `null` are silently dropped — neither kind is counted anywhere. -/
def parseTransactionData (data : List (List String)) : List RawTransaction :=
  (data.drop 1).filterMap (fun row =>
    if row.length < 5 then none else parseTransactionRow row)

inductive TxType where
  | income | expense
deriving DecidableEq, Repr

structure ProcessedTransaction where
  type : TxType
  name : String
  amount : ℚ
  date : String
  category : Option String
  merchant : Option String
  sourceType : Option String
  isRecurring : Bool
deriving DecidableEq, Repr

/-- The ordered keyword rule table of `intelligentCategorization`
(src/unnamed/part_000, lines 1487–1519). -/
def categorizationRules : List (String × List String) :=
  [("food", ["zepto", "swiggy", "zomato", "dominos", "mcdonalds", "kfc",
             "meesho", "grocery"]),
   ("transport", ["uber", "ola", "metro", "petrol", "fuel", "gas"]),
   ("entertainment", ["netflix", "amazon prime", "spotify", "bookmyshow",
                      "cinema"]),
   ("shopping", ["amazon", "flipkart", "myntra", "ajio", "meesho", "fashion"]),
   ("bills", ["jio", "airtel", "electricity", "gas", "water", "internet",
              "recharge"]),
   ("healthcare", ["pharma", "medicose", "hospital", "clinic", "doctor"]),
   ("utilities", ["electricity", "water", "gas", "internet", "mobile"]),
   ("education", ["education", "course", "training", "school", "college"])]

/-- `intelligentCategorization` (src/unnamed/part_000, lines 1483–1550):
first rule whose keyword occurs in the lowercased merchant wins; the AI
path for unknown merchants is commented out in the source and the function
returns `"other"`. -/
def intelligentCategorization (merchant : String) : String :=
  let merchantLower := jsToLower merchant
  match categorizationRules.find?
      (fun rule => rule.2.any (fun keyword => strIncludes merchantLower keyword)) with
  | some rule => rule.1
  | none => "other"

/-- `detectIncomeSource` (src/unnamed/part_000, lines 1553–1571). -/
def detectIncomeSource (merchant : String) : String :=
  let m := jsToLower merchant
  if strIncludes m "salary" || strIncludes m "pay" then "salary"
  else if strIncludes m "freelance" || strIncludes m "work" then "freelance"
  else if strIncludes m "business" || strIncludes m "profit" then "business"
  else if strIncludes m "investment" || strIncludes m "dividend" then "investment"
  else if strIncludes m "rent" || strIncludes m "rental" then "rental"
  else "other"

/-- `detectRecurring` (src/unnamed/part_000, lines 1574–1586). -/
def detectRecurring (merchant : String) : Bool :=
  let m := jsToLower merchant
  ["salary", "rent", "subscription", "recharge", "sip", "emi"].any
    (fun pattern => strIncludes m pattern)

/-- Collapse whitespace runs into a single space (`replace(/\s+/g, ' ')`). -/
def collapseWhitespaceAux : Bool → List Char → List Char
  | _, [] => []
  | inRun, c :: rest =>
    if c.isWhitespace then
      if inRun then collapseWhitespaceAux true rest
      else ' ' :: collapseWhitespaceAux true rest
    else c :: collapseWhitespaceAux false rest

def collapseWhitespace (l : List Char) : List Char :=
  collapseWhitespaceAux false l

/-- `cleanMerchantName` (src/unnamed/part_000, lines 1337–1343): strip
characters outside `\w\s-`, normalize whitespace, trim, limit to 50
characters. -/
def cleanMerchantName (merchant : String) : String :=
  let kept := merchant.toList.filter
    (fun c => c.isAlphanum || c = '_' || c.isWhitespace || c = '-')
  String.mk ((jsTrim (String.mk (collapseWhitespace kept))).data.take 50)

/-- `categorizeTransaction` (src/unnamed/part_000, lines 1429–1480);
its declared `null` result never occurs (every path of the body returns a
transaction), so the caller's `if (!processedTx) skipped++` branch is
unreachable and elided. -/
def categorizeTransaction (rawTx : RawTransaction) : ProcessedTransaction :=
  let amount := |rawTx.amount|
  let merchant := jsTrim rawTx.name
  if rawTx.isIncome then
    { type := .income, name := "Income from " ++ merchant, amount := amount,
      date := rawTx.date, category := none, merchant := none,
      sourceType := some (detectIncomeSource merchant),
      isRecurring := detectRecurring merchant }
  else
    { type := .expense, name := cleanMerchantName merchant, amount := amount,
      date := rawTx.date, category := some (intelligentCategorization merchant),
      merchant := some merchant, sourceType := none,
      isRecurring := detectRecurring merchant }

/-- The accumulator of the `processTransactionsWithAI` loop; `categories`
models the `Record<string, number>` in insertion order. -/
structure ImportState where
  processed : ℕ
  imported : ℕ
  skipped : ℕ
  errors : List String
  totalExpenses : ℚ
  totalIncome : ℚ
  categories : List (String × ℚ)
deriving DecidableEq, Repr

def initialImportState : ImportState :=
  { processed := 0, imported := 0, skipped := 0, errors := [],
    totalExpenses := 0, totalIncome := 0, categories := [] }

/-- `categories[cat] = (categories[cat] || 0) + amt` on the assoc-list
model: add to the existing binding or append a new one. -/
def bumpCategory (cats : List (String × ℚ)) (cat : String) (amt : ℚ) :
    List (String × ℚ) :=
  match cats with
  | [] => [(cat, amt)]
  | (c, v) :: rest =>
    if c = cat then (c, v + amt) :: rest
    else (c, v) :: bumpCategory rest cat amt

/-- One iteration of the `processTransactionsWithAI` loop
(src/unnamed/part_000, lines 1369–1416):

    processed++;
    if (rawTx.status.toUpperCase().includes("FAILED")) { skipped++; continue; }
    const processedTx = await categorizeTransaction(rawTx);
    const saveResult = await saveTransactionToDatabase(userId, processedTx);
    if (saveResult.success) { imported++; update totals/categories }
    else { errors.push(...); skipped++; }
-/
def processTransactionStep (save : ProcessedTransaction → Bool)
    (st : ImportState) (rawTx : RawTransaction) : ImportState :=
  let st := { st with processed := st.processed + 1 }
  if strIncludes (jsToUpper rawTx.status) "FAILED" then
    { st with skipped := st.skipped + 1 }
  else
    let processedTx := categorizeTransaction rawTx
    if save processedTx then
      let st := { st with imported := st.imported + 1 }
      match processedTx.type with
      | .expense =>
        let cat := (jsOrStr processedTx.category (some "other")).getD "other"
        { st with
          totalExpenses := st.totalExpenses + |processedTx.amount|,
          categories := bumpCategory st.categories cat |processedTx.amount| }
      | .income =>
        { st with totalIncome := st.totalIncome + processedTx.amount }
    else
      { st with
        errors := st.errors ++ ["Failed to save: " ++ processedTx.name],
        skipped := st.skipped + 1 }

/-- `processTransactionsWithAI` (src/unnamed/part_000, lines 1346–1426),
with `success := imported > 0` paired with the final counters. -/
def processTransactionsWithAI (save : ProcessedTransaction → Bool)
    (transactions : List RawTransaction) : Bool × ImportState :=
  let final := transactions.foldl (processTransactionStep save) initialImportState
  (final.imported > 0, final)

/-- The whole import path: parse the tabular rows, then process the parsed
transactions. -/
def importStatementRows (save : ProcessedTransaction → Bool)
    (data : List (List String)) : Bool × ImportState :=
  processTransactionsWithAI save (parseTransactionData data)

/-! ## Theorems -/

/-- C5: The affordability verdict is evaluated in the exact priority order
(1) balance ≤ 0 → NOT_AFFORDABLE/high, (2) purchase > balance →
NOT_AFFORDABLE/high with shortfall = purchase − balance, (3) purchase >
balance − 3×monthlyExpenses → RISKY/medium, (4) purchase/monthlyIncome >
0.5 → EXPENSIVE_FOR_INCOME/medium, (5) otherwise AFFORDABLE/low, first
match winning; in particular balance = −100, purchase = 500 yields
NOT_AFFORDABLE by rule 1 even though purchase > balance also holds. -/
theorem affordability_priority_order :
    (∀ balance monthlyIncome totalExpenses purchaseAmount : ℚ,
      0 < purchaseAmount →
      handleAffordabilityCheck balance monthlyIncome totalExpenses purchaseAmount =
        affordabilitySpec balance monthlyIncome totalExpenses purchaseAmount) ∧
    (∀ monthlyIncome totalExpenses : ℚ,
      handleAffordabilityCheck (-100) monthlyIncome totalExpenses 500 =
        ⟨.notAffordable, .high, .negativeBalance⟩ ∧ (500 : ℚ) > -100) := by
  constructor
  · intro b i e p hp
    by_cases h1 : b ≤ 0
    · simp [handleAffordabilityCheck, affordabilitySpec, h1]
    · by_cases h2 : b < p
      · simp [handleAffordabilityCheck, affordabilitySpec, h1, h2]
      · by_cases h3 : b - 3 * e < p
        · have h3' : max 0 (b - e * 3) < p := by
            rcases le_or_lt (b - e * 3) 0 with hm | hm
            · rw [max_eq_left hm]; exact hp
            · rw [max_eq_right hm.le]; linarith
          simp [handleAffordabilityCheck, affordabilitySpec, h1, h2, h3, h3']
        · have h3' : ¬ max 0 (b - e * 3) < p := by
            have := le_max_right (0 : ℚ) (b - e * 3)
            intro hc; apply h3; linarith
          by_cases h4 : (2 : ℚ)⁻¹ < p / i
          · have h4' : 50 < p / i * 100 := by linarith
            simp [handleAffordabilityCheck, affordabilitySpec, h1, h2, h3, h3', h4, h4']
          · have h4' : ¬ 50 < p / i * 100 := by intro hc; apply h4; linarith
            simp [handleAffordabilityCheck, affordabilitySpec, h1, h2, h3, h3', h4, h4']
  · intro i e
    constructor
    · simp [handleAffordabilityCheck]
    · norm_num

/-- Witness for C5: the equivalence applied at the concrete snapshot
balance = 1000, income = 2000, expenses = 100, purchase = 500. -/
theorem affordability_priority_order_witness :
    handleAffordabilityCheck 1000 2000 100 500 =
      affordabilitySpec 1000 2000 100 500 :=
  affordability_priority_order.1 1000 2000 100 500 (by norm_num)

/-- C6: With monthlySurplus = income − expenses > 0 and shortfall =
targetAmount − balance > 0, the months-to-target at rates 100%, 70% and
50% equal `ceil(shortfall / (monthlySurplus × r))`, and the
"with emergency fund" timeline equals
`ceil((targetAmount + 6×monthlyExpenses − balance) / monthlySurplus)`;
for income = 50000, expenses = 30000, balance = 10000, target = 50000 the
surplus is 20000, the shortfall 40000 and the 70%-rate months
`⌈40000/14000⌉ = 3`.  If monthlySurplus ≤ 0 the goal is infeasible with
the deficit reported, and if shortfall ≤ 0 it is affordable now. -/
theorem savingsTimeline_formulas :
    (∀ balance income expenses target : ℚ,
      0 < income - expenses → 0 < target - balance →
      (handleSavingsTimeline balance income expenses target).months100 =
        some ⌈(target - balance) / ((income - expenses) * 1)⌉ ∧
      (handleSavingsTimeline balance income expenses target).months70 =
        some ⌈(target - balance) / ((income - expenses) * (7/10))⌉ ∧
      (handleSavingsTimeline balance income expenses target).months50 =
        some ⌈(target - balance) / ((income - expenses) * (1/2))⌉ ∧
      (handleSavingsTimeline balance income expenses target).monthsEmergency =
        some ⌈(target + 6 * expenses - balance) / (income - expenses)⌉) ∧
    (∀ balance income expenses target : ℚ,
      income - expenses ≤ 0 →
      (handleSavingsTimeline balance income expenses target).feasible = false ∧
      (handleSavingsTimeline balance income expenses target).deficit =
        some |income - expenses|) ∧
    (∀ balance income expenses target : ℚ,
      0 < income - expenses → target - balance ≤ 0 →
      (handleSavingsTimeline balance income expenses target).affordableNow = true) ∧
    ((handleSavingsTimeline 10000 50000 30000 50000).monthlySurplus = 20000 ∧
     (handleSavingsTimeline 10000 50000 30000 50000).shortfall = 40000 ∧
     (handleSavingsTimeline 10000 50000 30000 50000).months70 = some 3) := by
  refine ⟨?_, ?_, ?_, ?_⟩
  · intro b i e t hs hf
    have hns : ¬ i - e ≤ 0 := not_le.2 hs
    refine ⟨?_, ?_, ?_, ?_⟩
    · simp only [handleSavingsTimeline, hns, if_false, mul_one]
    · simp only [handleSavingsTimeline, hns, if_false]
    · simp only [handleSavingsTimeline, hns, if_false]
    · simp only [handleSavingsTimeline, hns, if_false]
      congr 2
      ring
  · intro b i e t hs
    simp [handleSavingsTimeline, hs]
  · intro b i e t hs hf
    have hns : ¬ i - e ≤ 0 := not_le.2 hs
    simp [handleSavingsTimeline, hns, hf]
  · refine ⟨?_, ?_, ?_⟩ <;>
      · simp only [handleSavingsTimeline]
        norm_num [Int.ceil_eq_iff]

/-- Witness for C6: the formula conjuncts applied at the concrete snapshot
of the claim (balance 10000, income 50000, expenses 30000, target 50000),
where both hypotheses hold. -/
theorem savingsTimeline_formulas_witness :
    (handleSavingsTimeline 10000 50000 30000 50000).months70 =
      some ⌈(50000 - 10000 : ℚ) / ((50000 - 30000) * (7/10))⌉ :=
  (savingsTimeline_formulas.1 10000 50000 30000 50000 (by norm_num)
    (by norm_num)).2.1

/-- C10: Whenever the user's financial data is available but no target
amount is extracted from the intent payload, the user query, or the
conversation context, `handleSavingsTimeline` substitutes the default
target 50000 (item name "iPhone") instead of asking; consequently the
"I need to know the target amount" guard branch is unreachable for every
input (`resolveSavingsTarget` never returns `none`). -/
theorem savingsTarget_guard_unreachable :
    (∀ (dataAmount queryAmount contextAmount : Option ℚ)
       (dataItem queryItem : Option String),
      (resolveSavingsTarget dataAmount queryAmount contextAmount
        dataItem queryItem).isSome = true) ∧
    (∀ (dataAmount queryAmount contextAmount : Option ℚ)
       (dataItem queryItem : Option String),
      numTruthy dataAmount = false → numTruthy queryAmount = false →
      numTruthy contextAmount = false →
      resolveSavingsTarget dataAmount queryAmount contextAmount
          dataItem queryItem =
        some (50000, jsOrStr (jsOrStr dataItem queryItem) (some "iPhone"))) := by
  constructor
  · intro da qa ca di qi
    simp only [resolveSavingsTarget]
    generalize jsOrNum (jsOrNum da qa) ca = pb
    generalize jsOrNum da qa = pa
    generalize hpc : (if ¬ numTruthy pa = true then pb else pa) = pc
    by_cases hp : numTruthy pc = true
    · rw [if_neg (by simp [hp])]
      cases pc with
      | none => simp [numTruthy] at hp
      | some q => simp [hp]
    · rw [if_pos hp]
      simp [numTruthy]
  · intro da qa ca di qi h1 h2 h3
    have e1 : jsOrNum da qa = qa := by rw [jsOrNum, h1]; simp
    have e2 : jsOrNum qa ca = ca := by rw [jsOrNum, h2]; simp
    simp only [resolveSavingsTarget, e1, h2, Bool.false_eq_true, not_false_eq_true,
      if_true, e2, h3]
    simp [numTruthy]

/-- Witness for C10: with nothing extracted anywhere, the resolved target
is the default 50000 with item "iPhone". -/
theorem savingsTarget_guard_unreachable_witness :
    resolveSavingsTarget none none none none none = some (50000, some "iPhone") :=
  savingsTarget_guard_unreachable.2 none none none none none rfl rfl rfl

/-- C9: The late-night alert fires iff the entry's local hour is < 6: the
rule is written `hour < 6 || hour > 23`, and since local hours range over
`0..23` the `hour > 23` disjunct is unreachable; `detectAnomalies` is a
total function, so evaluating the rule at any hour raises no error. -/
theorem lateNight_iff_hour_lt_six :
    ∀ (expense : SmartExpense) (expenseDB : List SmartExpense),
      expense.hour < 24 →
      (Alert.lateNight ∈ detectAnomalies expense expenseDB ↔ expense.hour < 6) := by
  intro e db hlt
  simp only [detectAnomalies, List.mem_append]
  constructor
  · rintro (h | h)
    · split_ifs at h <;> simp_all
    · split_ifs at h with hc
      · rcases hc with h6 | h23
        · exact h6
        · omega
      · simp at h
  · intro h6
    refine Or.inr ?_
    rw [if_pos (Or.inl h6)]
    simp

/-- Witness for C9: an entry at hour 2 with empty history triggers the
late-night alert (2 < 6), per the theorem applied at hour 2 < 24. -/
theorem lateNight_iff_hour_lt_six_witness :
    Alert.lateNight ∈ detectAnomalies ⟨"tea", 40, "food", 2⟩ [] ↔ 2 < 6 :=
  lateNight_iff_hour_lt_six ⟨"tea", 40, "food", 2⟩ [] (by norm_num)

/-- The amount-alert criterion exactly as claim C2 states it: there is
prior history in the new expense's category (excluding the new one), and
the new amount exceeds twice the mean of that prior history. -/
def claimedAmountAlert (expense : SmartExpense) (priorDB : List SmartExpense) :
    Prop :=
  let prior := priorDB.filter (fun e => e.category = expense.category)
  prior ≠ [] ∧
    expense.amount > 2 * ((prior.map (fun e => e.amount)).sum / prior.length)

instance (expense : SmartExpense) (priorDB : List SmartExpense) :
    Decidable (claimedAmountAlert expense priorDB) := by
  unfold claimedAmountAlert; infer_instance

/-- Counterexample to C2 as stated: with one prior food expense of 100 and
a new food expense of 250, the claim's criterion fires (250 > 2×100), but
`addSmartExpense` pushes the new expense into the database *before*
`detectAnomalies` filters it, so the code compares 250 against
2 × mean(100, 250) = 350 and emits no alert. -/
theorem amountAlert_excluding_counterexample :
    claimedAmountAlert ⟨"new", 250, "food", 12⟩ [⟨"prior", 100, "food", 12⟩] ∧
    Alert.unusualAmount ∉
      (addSmartExpense ⟨"new", 250, "food", 12⟩ [⟨"prior", 100, "food", 12⟩]).2 := by
  constructor
  · unfold claimedAmountAlert
    norm_num
  · norm_num [addSmartExpense, detectAnomalies]

/-- C2 as amended: the mean is computed over all expenses of the category
*including* the newly committed one, and the "unusual amount" alert fires
iff the new amount exceeds twice that mean; with no prior history in the
category the compared set is the new expense alone, so no alert is
produced for any nonnegative amount. -/
theorem amountAlert_including_mean :
    (∀ (expense : SmartExpense) (priorDB : List SmartExpense),
      Alert.unusualAmount ∈ (addSmartExpense expense priorDB).2 ↔
        expense.amount >
          2 * ((((priorDB ++ [expense]).filter
                  (fun e => e.category = expense.category)).map
                  (fun e => e.amount)).sum /
                ((priorDB ++ [expense]).filter
                  (fun e => e.category = expense.category)).length)) ∧
    (∀ (expense : SmartExpense) (priorDB : List SmartExpense),
      0 ≤ expense.amount →
      priorDB.filter (fun e => e.category = expense.category) = [] →
      Alert.unusualAmount ∉ (addSmartExpense expense priorDB).2) := by
  have hmem : ∀ (e : SmartExpense) (db : List SmartExpense),
      Alert.unusualAmount ∈ (addSmartExpense e db).2 ↔
        (0 < ((db ++ [e]).filter (fun x => x.category = e.category)).length ∧
          e.amount >
            ((((db ++ [e]).filter (fun x => x.category = e.category)).map
                (fun x => x.amount)).sum /
              ((db ++ [e]).filter (fun x => x.category = e.category)).length) * 2) := by
    intro e db
    simp only [addSmartExpense, detectAnomalies, List.mem_append]
    constructor
    · rintro (h | h)
      · split_ifs at h with hlen hgt
        · exact ⟨hlen, hgt⟩
        · simp at h
        · simp at h
      · split_ifs at h <;> simp at h
    · rintro ⟨hlen, hgt⟩
      refine Or.inl ?_
      rw [if_pos hlen, if_pos hgt]
      simp
  have hself : ∀ (e : SmartExpense) (db : List SmartExpense),
      (db ++ [e]).filter (fun x => x.category = e.category) =
        db.filter (fun x => x.category = e.category) ++ [e] := by
    intro e db
    simp [List.filter_append]
  constructor
  · intro e db
    rw [hmem e db]
    constructor
    · rintro ⟨-, h⟩
      linarith
    · intro h
      refine ⟨?_, by linarith⟩
      rw [hself e db]
      simp
  · intro e db hnn hempty
    rw [hmem e db]
    simp only [hself, hempty, List.nil_append]
    rintro ⟨-, hgt⟩
    simp at hgt
    linarith

/-- Witness for C2 (amended), discharging the no-prior-history conjunct: a
first-ever food expense of 40 against an empty database produces no amount
alert. -/
theorem amountAlert_including_mean_witness :
    Alert.unusualAmount ∉ (addSmartExpense ⟨"tea", 40, "food", 12⟩ []).2 :=
  amountAlert_including_mean.2 ⟨"tea", 40, "food", 12⟩ [] (by norm_num) rfl

/-- C3: When the primary provider call fails for any reason, the gateway
issues exactly one additional call to the fallback provider with an
identical message payload; if the fallback also fails, the caller receives
exactly one failure; and no execution makes more than two provider calls
for one request. -/
theorem gateway_single_fallback :
    (∀ (primary fallback : List String → Except String String)
       (messages : List String),
      (callAIWithBestModel primary fallback messages).2.length ≤ 2) ∧
    (∀ (primary fallback : List String → Except String String)
       (messages : List String) (e1 : String),
      primary messages = .error e1 →
      (callAIWithBestModel primary fallback messages).2 =
        [(.primary, messages), (.fallback, messages)] ∧
      ∀ e2 : String, fallback messages = .error e2 →
        (callAIWithBestModel primary fallback messages).1 = .error e2) := by
  constructor
  · intro primary fallback messages
    unfold callAIWithBestModel
    rcases primary messages with e | r
    · rcases fallback messages with e2 | r2 <;> simp
    · simp
  · intro primary fallback messages e1 h1
    unfold callAIWithBestModel
    rw [h1]
    rcases hf : fallback messages with e2 | r2
    · exact ⟨rfl, fun e2' h2 => by cases h2; rfl⟩
    · exact ⟨rfl, fun e2' h2 => by cases h2⟩

/-- Witness for C3: both providers reject the payload `["hi"]`; the call
log is exactly primary-then-fallback with the identical payload, and the
single surfaced failure is the fallback's. -/
theorem gateway_single_fallback_witness :
    (callAIWithBestModel (fun _ => .error "primary down")
        (fun _ => .error "fallback down") ["hi"]).2 =
      [(.primary, ["hi"]), (.fallback, ["hi"])] ∧
    (callAIWithBestModel (fun _ => .error "primary down")
        (fun _ => .error "fallback down") ["hi"]).1 = .error "fallback down" :=
  ⟨(gateway_single_fallback.2 _ _ ["hi"] "primary down" rfl).1,
   (gateway_single_fallback.2 _ _ ["hi"] "primary down" rfl).2
     "fallback down" rfl⟩

/-- Every successful run of the `try`-body of `extractFinancialData`
returns either the `none` variant or a result with `hasData = true`. -/
lemma extractFinancialDataCore_ok
    (jsParse : String → Except String Json) (raw : String) (r : ExtractResult)
    (h : extractFinancialDataCore jsParse raw = .ok r) :
    r = noneExtraction ∨ r.hasData = true := by
  simp only [extractFinancialDataCore] at h
  rcases hp : jsParse (stripFences (contentOrBrace raw)) with e | j <;> rw [hp] at h
  · cases h
  · simp only at h
    rcases hj : jsGetField j "type" with e | tfield <;> rw [hj] at h
    · cases h
    · simp only at h
      split_ifs at h with hcond
      · cases h; exact Or.inl rfl
      · rcases hd : jsGetField j "data" with e | dfield <;>
          rcases hm : jsGetField j "isMultiple" with e2 | mfield <;>
          rw [hd, hm] at h <;> simp only at h
        · cases h
        · cases h
        · cases h
        · cases h; exact Or.inr rfl

/-- C7: For every raw provider output string whose fence-stripped content
fails to parse, `extractFinancialData` returns the `none` variant
(`hasData = false`) and `extractExpenseFromMessage` returns
`hasExpense = false`; no exception reaches the caller — extraction is
total, always yielding either the `none` variant or extracted data. -/
theorem extraction_malformed_returns_none :
    (∀ (jsParse : String → Except String Json) (raw : String) (e : String),
      jsParse (stripFences (contentOrBrace raw)) = .error e →
      extractFinancialData jsParse raw = noneExtraction ∧
      extractExpenseFromMessage jsParse raw = noExpenseExtraction) ∧
    (∀ (jsParse : String → Except String Json) (raw : String),
      extractFinancialData jsParse raw = noneExtraction ∨
      (extractFinancialData jsParse raw).hasData = true) := by
  constructor
  · intro jsParse raw e h
    constructor
    · simp only [extractFinancialData, extractFinancialDataCore, h]
    · simp only [extractExpenseFromMessage, extractExpenseCore, h]
  · intro jsParse raw
    unfold extractFinancialData
    rcases hc : extractFinancialDataCore jsParse raw with e | r
    · exact Or.inl rfl
    · exact extractFinancialDataCore_ok jsParse raw r hc

/-- Witness for C7: a parser that rejects everything (as `JSON.parse` does
on the string "not json") makes both extractors return their `none`
variants. -/
theorem extraction_malformed_returns_none_witness :
    extractFinancialData (fun _ => .error "SyntaxError") "not json" =
      noneExtraction ∧
    extractExpenseFromMessage (fun _ => .error "SyntaxError") "not json" =
      noExpenseExtraction :=
  extraction_malformed_returns_none.1 (fun _ => .error "SyntaxError")
    "not json" "SyntaxError" rfl

/-- C8: Missing-field detection follows the fixed order amount →
description → category (amount missing when absent or ≤ 0, description
missing when both name and description are absent, per the source's
truthiness tests), and the generated clarifying question corresponds to
the *first* missing field in that order — a single question, never one for
several fields at once. -/
theorem missingFields_order_and_question :
    ∀ d : ExpenseData,
      (missingFieldsOf d).Sublist ["amount", "description", "category"] ∧
      ("amount" ∈ missingFieldsOf d ↔
        (¬ numTruthy d.amount ∨ leZeroQ d.amount)) ∧
      ("description" ∈ missingFieldsOf d ↔
        (¬ strTruthy d.name ∧ ¬ strTruthy d.description)) ∧
      ("category" ∈ missingFieldsOf d ↔ ¬ strTruthy d.category) ∧
      (∀ f, (missingFieldsOf d).head? = some f →
        clarificationFor (missingFieldsOf d) d = questionForMissingField f d) ∧
      (missingFieldsOf d = [] → clarificationFor (missingFieldsOf d) d = none) := by
  intro d
  cases hA : numTruthy d.amount <;> cases hL : leZeroQ d.amount <;>
    cases hN : strTruthy d.name <;> cases hD : strTruthy d.description <;>
      cases hC : strTruthy d.category <;>
        simp_all [missingFieldsOf, clarificationFor, questionForMissingField]

/-- Witness for C8: a fully-empty payload misses all three fields in
order, and the generated question is the amount question (first missing
field). -/
theorem missingFields_order_and_question_witness :
    clarificationFor
        (missingFieldsOf ⟨none, none, none, none, none, none⟩)
        ⟨none, none, none, none, none, none⟩ =
      questionForMissingField "amount" ⟨none, none, none, none, none, none⟩ :=
  (missingFields_order_and_question
    ⟨none, none, none, none, none, none⟩).2.2.2.2.1 "amount" rfl

/-- The non-pending chat path leaves the conversation state untouched and
never asks a clarifying question: no branch of `processChatMessageMain`
writes to `conversationStates` or produces a clarification response. -/
lemma processChatMessageMain_state (save : ExpenseData → Bool)
    (state : ConversationState) (message : String)
    (extraction : ExtractResult) :
    (processChatMessageMain save state message extraction).newState = state ∧
    isClarifyingQuestion
      (processChatMessageMain save state message extraction).response = false := by
  simp only [processChatMessageMain]
  by_cases hg : greetingWords.contains (jsToLower (jsTrim message)) = true
  · rw [if_pos hg]
    simp [isClarifyingQuestion]
  · rw [if_neg hg]
    by_cases hd : ¬ extraction.hasData = true
    · rw [if_pos hd]
      simp [isClarifyingQuestion]
    · rw [if_neg hd]
      unfold handleExpenseCreation handleMultipleExpenseCreation
      (repeat' split) <;> simp [isClarifyingQuestion]

/-- C1 fails on the code: the claim says an utterance recognized as a
single expense missing exactly one required field makes the chat operation
ask one clarifying question and create the per-user Pending Operation.  In
the code, `processChatMessage` routes such an extraction straight to
`handleExpenseCreation`, which saves immediately; nothing ever writes a
pending expense into `conversationStates` (the completion machinery is
reachable only from a pending state that is never created).  First
conjunct: from the empty per-user state, no message/extraction/persistence
behaviour yields a pending operation or a clarifying question.  Second
conjunct: at the concrete failing input — a single expense named "coffee"
with category "food" and no amount — the code saves immediately
(`expense_saved`, one entry with `amount = none` committed) instead of
asking for the amount. -/
theorem chat_never_creates_pending :
    (∀ (save : ExpenseData → Bool) (message : String)
       (extraction : ExtractResult),
      (processChatMessage save emptyConversationState message
          extraction).newState = emptyConversationState ∧
      isClarifyingQuestion
        (processChatMessage save emptyConversationState message
          extraction).response = false) ∧
    ((processChatMessage (fun _ => true) emptyConversationState
        "bought coffee at the cafe"
        { type := .str "expense", hasData := true,
          data := some (.obj [("name", .str "coffee"),
                              ("category", .str "food")]),
          isMultiple := false }).action = some ChatAction.expenseSaved ∧
     (processChatMessage (fun _ => true) emptyConversationState
        "bought coffee at the cafe"
        { type := .str "expense", hasData := true,
          data := some (.obj [("name", .str "coffee"),
                              ("category", .str "food")]),
          isMultiple := false }).committed =
       [{ name := some "coffee", amount := none, category := some "food",
          description := none, merchant := none, location := none }] ∧
     isClarifyingQuestion
       (processChatMessage (fun _ => true) emptyConversationState
          "bought coffee at the cafe"
          { type := .str "expense", hasData := true,
            data := some (.obj [("name", .str "coffee"),
                                ("category", .str "food")]),
            isMultiple := false }).response = false) := by
  constructor
  · intro save message extraction
    exact processChatMessageMain_state save emptyConversationState message
      extraction
  · refine ⟨?_, ?_, ?_⟩ <;> rfl

/-- A concrete statement: a header row followed by 10 transaction rows, of
which 2 carry a FAILED status and 1 is malformed (3 cells instead of the
minimum 5). -/
def statementRows10 : List (List String) :=
  [["Date", "Merchant", "Amount", "Status", "Bank"],
   ["01/01/2024", "Swiggy", "-250", "SUCCESS", "HDFC"],
   ["02/01/2024", "Uber", "-150", "SUCCESS", "HDFC"],
   ["03/01/2024", "Amazon", "-1200", "SUCCESS", "ICICI"],
   ["04/01/2024", "Netflix", "-500", "SUCCESS", "HDFC"],
   ["05/01/2024", "MOHIT SINGH", "-300", "SUCCESS", "HDFC"],
   ["06/01/2024", "Salary Pay", "45000", "SUCCESS", "HDFC"],
   ["07/01/2024", "Jio Recharge", "-299", "SUCCESS", "HDFC"],
   ["08/01/2024", "Zomato", "-450", "FAILED", "HDFC"],
   ["09/01/2024", "Ola", "-200", "FAILED", "HDFC"],
   ["10/01/2024", "Myntra", "-100"]]

/-- Evaluation of the import pipeline on `statementRows10` with every save
succeeding: 9 rows reach processing (the malformed row is dropped during
parsing), the 2 FAILED rows are skipped, the rest import. -/
lemma statementRows10_counts :
    (importStatementRows (fun _ => true) statementRows10).2.imported = 7 ∧
    (importStatementRows (fun _ => true) statementRows10).2.skipped = 2 := by
  have hparse : parseTransactionData statementRows10 =
      [⟨"Swiggy", "HDFC", 250, "01/01/2024", "SUCCESS", false⟩,
       ⟨"Uber", "HDFC", 150, "02/01/2024", "SUCCESS", false⟩,
       ⟨"Amazon", "ICICI", 1200, "03/01/2024", "SUCCESS", false⟩,
       ⟨"Netflix", "HDFC", 500, "04/01/2024", "SUCCESS", false⟩,
       ⟨"MOHIT SINGH", "HDFC", 300, "05/01/2024", "SUCCESS", false⟩,
       ⟨"Salary Pay", "HDFC", 45000, "06/01/2024", "SUCCESS", true⟩,
       ⟨"Jio Recharge", "HDFC", 299, "07/01/2024", "SUCCESS", false⟩,
       ⟨"Zomato", "HDFC", 450, "08/01/2024", "FAILED", false⟩,
       ⟨"Ola", "HDFC", 200, "09/01/2024", "FAILED", false⟩] := by
    simp only [statementRows10, parseTransactionData, List.drop_succ_cons,
      List.drop_zero, List.filterMap_cons, List.filterMap_nil]
    simp +decide [parseTransactionRow, parseFloatQ, cleanAmountChars,
      digitsToNat, jsTrim, strIncludes, listContainsSub]
  rw [importStatementRows, hparse]
  simp +decide [processTransactionsWithAI, List.foldl_cons, List.foldl_nil,
    processTransactionStep, categorizeTransaction, intelligentCategorization,
    categorizationRules, detectIncomeSource, detectRecurring, cleanMerchantName,
    collapseWhitespace, collapseWhitespaceAux, strIncludes, listContainsSub,
    jsToUpper, jsToLower, jsTrim, bumpCategory, initialImportState, jsOrStr,
    strTruthy]

/-- Counterexample to C4 as stated: on a 10-row statement with 2
FAILED-status rows and 1 malformed row (and every save succeeding), the
ingestion yields imported = 7 but skipped = 2, not 3 — the malformed row is
dropped inside `parseTransactionData` without touching any counter, so
only the two FAILED rows are counted as skipped. -/
theorem import_ten_rows_counterexample :
    (importStatementRows (fun _ => true) statementRows10).2.imported = 7 ∧
    (importStatementRows (fun _ => true) statementRows10).2.skipped = 2 ∧
    ¬ (importStatementRows (fun _ => true) statementRows10).2.skipped = 3 := by
  refine ⟨statementRows10_counts.1, statementRows10_counts.2, ?_⟩
  rw [statementRows10_counts.2]
  norm_num

/-- `categories[cat] += amt` adds `amt` to the sum of the per-category
totals. -/
lemma bumpCategory_snd_sum (cats : List (String × ℚ)) (cat : String) (amt : ℚ) :
    ((bumpCategory cats cat amt).map Prod.snd).sum =
      (cats.map Prod.snd).sum + amt := by
  induction cats with
  | nil => simp [bumpCategory]
  | cons hd tl ih =>
    rcases hd with ⟨c, v⟩
    by_cases h : c = cat <;> simp [bumpCategory, h, ih] <;> ring

/-- Each loop iteration of `processTransactionsWithAI` keeps the sum of
per-category totals equal to the running expense total: an imported
expense adds its amount to both, and every other outcome touches
neither. -/
lemma processTransactionStep_sum (save : ProcessedTransaction → Bool)
    (st : ImportState) (tx : RawTransaction)
    (h : (st.categories.map Prod.snd).sum = st.totalExpenses) :
    ((processTransactionStep save st tx).categories.map Prod.snd).sum =
      (processTransactionStep save st tx).totalExpenses := by
  unfold processTransactionStep
  dsimp only
  split_ifs with hfail hsave
  · simpa using h
  · cases htype : (categorizeTransaction tx).type <;>
      simp_all [bumpCategory_snd_sum]
  · simpa using h

/-- The loop invariant propagated over the whole transaction list. -/
lemma processTransactions_foldl_sum (save : ProcessedTransaction → Bool)
    (txs : List RawTransaction) (st : ImportState)
    (h : (st.categories.map Prod.snd).sum = st.totalExpenses) :
    (((txs.foldl (processTransactionStep save) st).categories.map
        Prod.snd).sum) =
      (txs.foldl (processTransactionStep save) st).totalExpenses := by
  induction txs generalizing st with
  | nil => exact h
  | cons tx rest ih =>
    exact ih (processTransactionStep save st tx)
      (processTransactionStep_sum save st tx h)

/-- C4 as amended: on the 10-row statement with 2 FAILED rows and 1
malformed row, `importStatement` yields imported = 7 and skipped = 2 (the
malformed row is silently dropped at parse time and counted nowhere), and
for every statement and persistence behaviour the per-category totals of
the summary sum exactly to the reported imported expense total. -/
theorem import_ten_rows_amended :
    (importStatementRows (fun _ => true) statementRows10).2.imported = 7 ∧
    (importStatementRows (fun _ => true) statementRows10).2.skipped = 2 ∧
    (∀ (save : ProcessedTransaction → Bool) (txs : List RawTransaction),
      (((processTransactionsWithAI save txs).2.categories.map Prod.snd).sum) =
        (processTransactionsWithAI save txs).2.totalExpenses) := by
  refine ⟨statementRows10_counts.1, statementRows10_counts.2, ?_⟩
  intro save txs
  exact processTransactions_foldl_sum save txs initialImportState (by
    simp [initialImportState])

end AIFinance
